import Mathlib

/-!
Shallow embedding of the asynchronous notification pipeline of the
task-management demo (api-service producer, Redis queue transport,
worker-service consumer, email-service collaborator), together with
proofs about its behaviour.

Python values flowing through the pipeline are JSON values; machine
integers are modelled as `Int` (Python integers are unbounded);
fallible Python code (subscripting a dict that may lack the key)
returns `Except`.
-/

namespace TaskMgmt

/-- JSON values as handled by `json.dumps` / `json.loads` and by the
HTTP client `response.json()` calls.  Python `None` is `null`; dictionaries
are ordered field lists (Python dicts preserve insertion order). -/
inductive Json where
  | null : Json
  | bool (b : Bool) : Json
  | num (n : Int) : Json
  | str (s : String) : Json
  | obj (fields : List (String × Json)) : Json

/-- Python truthiness of a JSON value: `None`, `False`, `0`, the empty
string and the empty dict are falsy, everything else is truthy.  This is
the test performed by `if task and user:` and `if not user:`. -/
def Json.truthy : Json → Bool
  | .null => false
  | .bool b => b
  | .num n => n != 0
  | .str s => s != ""
  | .obj fields => !fields.isEmpty

/-- Python `x == "s"` where `x` is an arbitrary value and `"s"` a string
literal: true exactly when `x` is that very string (Python equality
between a string and a value of any other type is `False`). -/
def Json.isStr (j : Json) (s : String) : Bool :=
  match j with
  | .str t => t == s
  | _ => false

/-- Field lookup in a JSON value: `some v` when the value is an object
with the key, `none` otherwise. -/
def Json.lookup : Json → String → Option Json
  | .obj fields, k => fields.lookup k
  | _, _ => none

/-- Python `d.get(k)` on a dict (an ordered field list): the value when
the key is present, `None` otherwise. -/
def pyGet (d : List (String × Json)) (k : String) : Json :=
  (d.lookup k).getD Json.null

/-- Errors raised by unguarded Python subscripting. -/
inductive PyErr where
  | keyError (k : String) : PyErr
  | typeError : PyErr

/-- Python `x[k]`: the value when `x` is a dict containing key `k`,
`KeyError` when `x` is a dict lacking it, `TypeError` when `x` is not
subscriptable by a string. -/
def pySubscript (j : Json) (k : String) : Except PyErr Json :=
  match j with
  | .obj fields =>
    match fields.lookup k with
    | some v => .ok v
    | none => .error (.keyError k)
  | _ => .error .typeError

/-- Outcome of one HTTP call made through an `httpx.Client`: a response
with a status code and parsed JSON body, or a connection error, or a
timeout (all exception-raising outcomes other than a received response
are collapsed into the latter two). -/
inductive HttpOutcome where
  | ok (status : Nat) (body : Json) : HttpOutcome
  | connError : HttpOutcome
  | timeout : HttpOutcome

/-- `httpx.Response.is_success`: status in the 2xx range.
`response.raise_for_status()` raises exactly when this is false. -/
def isSuccess (status : Nat) : Bool :=
  200 ≤ status && status < 300

/-- A failed collaborator call: timeout, connection error, or a non-2xx
response (which makes `raise_for_status` raise inside the `try`). -/
def HttpOutcome.failed : HttpOutcome → Bool
  | .ok status _ => !isSuccess status
  | .connError => true
  | .timeout => true

/-- `ApiClient.get_task` (worker-service `external/api_client.py`):
`GET /api/tasks/{task_id}`, `raise_for_status`, return the parsed JSON
body; any exception is caught and `None` returned.  A 2xx body of JSON
`null` also parses to Python `None`, so both cases yield `Json.null`. -/
def ApiClient.get_task (resp : HttpOutcome) : Json :=
  match resp with
  | .ok status body => if isSuccess status then body else Json.null
  | _ => Json.null

/-- `ApiClient.get_user` (worker-service `external/api_client.py`):
same shape as `get_task`, against `GET /api/users/{user_id}`. -/
def ApiClient.get_user (resp : HttpOutcome) : Json :=
  match resp with
  | .ok status body => if isSuccess status then body else Json.null
  | _ => Json.null

/-- The JSON body `EmailClient.send_task_reminder` posts to the email
service at `POST /api/emails/send`, as an ordered field list. -/
def reminderRequestFields (task_id user_id to_email : Json) : List (String × Json) :=
  [("type", Json.str "task_reminder"),
   ("task_id", task_id),
   ("user_id", user_id),
   ("to", to_email)]

/-- `EmailClient.send_task_reminder` (worker-service
`external/email_client.py`): posts the reminder body, `raise_for_status`,
returns `True`; any exception is caught and `False` returned. -/
def EmailClient.send_task_reminder (resp : HttpOutcome) : Bool :=
  match resp with
  | .ok status _ => isSuccess status
  | _ => false

/-- One collaborator call made by the worker while processing a message,
with the arguments it was given. -/
inductive Call where
  | getTask (id : Json) : Call
  | getUser (id : Json) : Call
  | sendEmail (task_id user_id to_email : Json) : Call

/-- External collaborators of the worker, as response oracles: the
response to `GET /api/tasks/{id}`, to `GET /api/users/{id}`, and to the
email-send POST for given `(task_id, user_id, to)` arguments. -/
structure Collaborators where
  taskResp : Json → HttpOutcome
  userResp : Json → HttpOutcome
  emailResp : Json → Json → Json → HttpOutcome

/-- The dict `{"status": "logged", "task_id": task_id}` returned for
`task_created` messages. -/
def resultLogged (task_id : Json) : Json :=
  .obj [("status", .str "logged"), ("task_id", task_id)]

/-- The dict `{"status": "reminder_sent", "task_id": task_id}` returned
after a reminder email dispatch. -/
def resultReminderSent (task_id : Json) : Json :=
  .obj [("status", .str "reminder_sent"), ("task_id", task_id)]

/-- The dict `{"status": "unknown_type"}` returned by the fall-through
of `process_notification`. -/
def resultUnknownType : Json :=
  .obj [("status", .str "unknown_type")]

/-- `process_notification` (worker-service `service/tasks.py`): dispatch
one dequeued message by its `type` field.  Returns the handler result
(or the uncaught Python error it raises) together with the list of
collaborator calls it performed, in order. -/
def process_notification (env : Collaborators) (notification_data : List (String × Json)) :
    Except PyErr Json × List Call :=
  let notification_type := pyGet notification_data "type"
  let task_id := pyGet notification_data "task_id"
  let user_id := pyGet notification_data "user_id"
  if notification_type.isStr "task_created" then
    (.ok (resultLogged task_id), [])
  else if notification_type.isStr "task_reminder" then
    let task := ApiClient.get_task (env.taskResp task_id)
    let user := ApiClient.get_user (env.userResp user_id)
    if task.truthy && user.truthy then
      match pySubscript user "email" with
      | .error e => (.error e, [.getTask task_id, .getUser user_id])
      | .ok to_email =>
        let _sent := EmailClient.send_task_reminder (env.emailResp task_id user_id to_email)
        (.ok (resultReminderSent task_id),
         [.getTask task_id, .getUser user_id, .sendEmail task_id user_id to_email])
    else
      (.ok resultUnknownType, [.getTask task_id, .getUser user_id])
  else
    (.ok resultUnknownType, [])

/-- Producer message record: the dict built by
`NotificationQueue.send_task_created` / `send_task_reminder` before
`json.dumps`. -/
structure NotificationMessage where
  type : String
  task_id : Int
  user_id : Int

/-- JSON encoding of a producer message, field order as in the source:
`{"type": ..., "task_id": ..., "user_id": ...}` (what `json.dumps`
serializes at enqueue time). -/
def NotificationMessage.toJson (m : NotificationMessage) : Json :=
  .obj [("type", .str m.type), ("task_id", .num m.task_id), ("user_id", .num m.user_id)]

/-- Modelled from the spec: the dequeue-side JSON decoding of a wire
message back into its fields (performed by the queue library on the
consumer side, not by repository code); section 6 gives the wire format
as a JSON object with a string `type` and integer `task_id` and
`user_id`. -/
def NotificationMessage.fromJson (j : Json) : Option NotificationMessage :=
  match j.lookup "type", j.lookup "task_id", j.lookup "user_id" with
  | some (.str t), some (.num a), some (.num b) => some ⟨t, a, b⟩
  | _, _, _ => none

/-- Does a JSON value conform to the section 6 wire format
`{"type": str, "task_id": int, "user_id": int}`? -/
def wireFormat : Json → Bool
  | .obj [("type", .str _), ("task_id", .num _), ("user_id", .num _)] => true
  | _ => false

/-- The queue name used by `NotificationQueue`. -/
def queue_name : String := "notifications"

/-- Appending one serialized message at the tail of one Redis list
(the list-level effect of `RPUSH`). -/
def enqueue (q : List Json) (m : Json) : List Json :=
  q ++ [m]

/-- Redis `RPUSH key value` over the whole key space: append at the tail
of the named list, leave every other key unchanged. -/
def rpush (store : String → List Json) (key : String) (v : Json) : String → List Json :=
  fun k => if k = key then enqueue (store k) v else store k

/-- `NotificationQueue.send_task_created` (api-service
`external/notification_queue.py`): build the `task_created` message and
`RPUSH` its JSON serialization onto the `notifications` list. -/
def NotificationQueue.send_task_created (store : String → List Json)
    (task_id user_id : Int) : String → List Json :=
  rpush store queue_name (NotificationMessage.toJson ⟨"task_created", task_id, user_id⟩)

/-- `NotificationQueue.send_task_reminder` (api-service
`external/notification_queue.py`): build the `task_reminder` message and
`RPUSH` its JSON serialization onto the `notifications` list. -/
def NotificationQueue.send_task_reminder (store : String → List Json)
    (task_id user_id : Int) : String → List Json :=
  rpush store queue_name (NotificationMessage.toJson ⟨"task_reminder", task_id, user_id⟩)

/-- `TaskService.create_task` (api-service `service/task_service.py`),
queue effect only: after the repository collaborator persists the task
and hands back its id `db_task.id`, enqueue exactly one `task_created`
notification carrying that id and the given `user_id`. -/
def TaskService.create_task (db_task_id : Int) (user_id : Int)
    (store : String → List Json) : String → List Json :=
  NotificationQueue.send_task_created store db_task_id user_id

/-- Modelled from the spec: `dequeue` removes and returns the oldest
message of the list, or reports the queue empty (the pop side of the
transport is performed by the Redis/Celery libraries, not by repository
code; section 4.1 gives the contract). -/
def dequeue : List Json → Option (Json × List Json)
  | [] => none
  | m :: rest => some (m, rest)

/-- Repeatedly `dequeue` until the queue reports empty, collecting the
received messages in order; fuel bounds the recursion. -/
def consumeFuel : Nat → List Json → List Json
  | 0, _ => []
  | n + 1, q =>
    match dequeue q with
    | none => []
    | some (m, rest) => m :: consumeFuel n rest

/-- Drain a queue completely through `dequeue`, collecting the received
messages in order. -/
def consumeAll (q : List Json) : List Json :=
  consumeFuel q.length q

/-- Collaborators of the email service, as oracles: the response its own
`api_client.get_user` call receives, and whether each SMTP dispatch
(`send_task_completed_email task_id email`, `send_welcome_email to
username`) succeeds. -/
structure EmailEnv where
  getUserResp : Json → HttpOutcome
  sendTaskCompletedOk : Json → Json → Bool
  sendWelcomeOk : Json → Json → Bool

/-- Modelled from the spec: the own `ApiClient.get_user` of the email service
(its `external/api_client.py` is not present under the sources); per
section 6 Collaborator A, `GET /api/users/{id}` yields the JSON entity
or a 404, and a failed call yields no entity — the same shape as the
worker-service client. -/
def EmailRoutes.api_get_user (resp : HttpOutcome) : Json :=
  ApiClient.get_user resp

/-- `send_email` (email-service `api/routes.py`): dispatch
`POST /api/emails/send` on the `type` field of the body.  Returns the HTTP
status code and JSON body of the response (or the uncaught Python error
the handler raises). -/
def EmailRoutes.send_email (env : EmailEnv) (data : List (String × Json)) :
    Except PyErr (Nat × Json) :=
  let email_type := pyGet data "type"
  if email_type.isStr "task_completed" then
    let task_id := pyGet data "task_id"
    let user_id := pyGet data "user_id"
    let user := EmailRoutes.api_get_user (env.getUserResp user_id)
    if !user.truthy then
      .ok (404, .obj [("error", .str "User not found")])
    else
      match pySubscript user "email" with
      | .error e => .error e
      | .ok email =>
        if env.sendTaskCompletedOk task_id email then
          .ok (200, .obj [("status", .str "sent"), ("to", email)])
        else
          .ok (500, .obj [("error", .str "Failed to send email")])
  else if email_type.isStr "welcome" then
    let user_id := pyGet data "user_id"
    let to_email := pyGet data "to"
    let user := EmailRoutes.api_get_user (env.getUserResp user_id)
    if !user.truthy then
      .ok (404, .obj [("error", .str "User not found")])
    else
      match pySubscript user "username" with
      | .error e => .error e
      | .ok username =>
        if env.sendWelcomeOk to_email username then
          .ok (200, .obj [("status", .str "sent"), ("to", to_email)])
        else
          .ok (500, .obj [("error", .str "Failed to send email")])
  else
    .ok (400, .obj [("error", .str "Invalid email type")])

/-- Collaborators stub: the task and user lookups answer 200 with fixed
bodies, the email send answers 200. -/
def stubCollaborators (taskBody userBody : Json) : Collaborators :=
  ⟨fun _ => .ok 200 taskBody, fun _ => .ok 200 userBody, fun _ _ _ => .ok 200 .null⟩

/-- Collaborators stub: every call fails with a connection error. -/
def failEnv : Collaborators :=
  ⟨fun _ => .connError, fun _ => .connError, fun _ _ _ => .connError⟩

/-- Collaborators stub: the task and user lookups answer 404, the email
send answers 200. -/
def notFoundEnv : Collaborators :=
  ⟨fun _ => .ok 404 (.obj [("error", .str "Not found")]),
   fun _ => .ok 404 (.obj [("error", .str "Not found")]),
   fun _ _ _ => .ok 200 .null⟩

/-- Concrete reminder message from the spec
`{"type": "task_reminder", "task_id": 42, "user_id": 7}`. -/
def reminderMsg42 : List (String × Json) :=
  [("type", .str "task_reminder"), ("task_id", .num 42), ("user_id", .num 7)]

theorem Json.isStr_iff (j : Json) (s : String) :
    j.isStr s = true ↔ j = Json.str s := by
  cases j <;> simp [Json.isStr]

theorem Json.isStr_eq_false {j : Json} {s : String} (h : j ≠ Json.str s) :
    j.isStr s = false := by
  cases hb : j.isStr s
  · rfl
  · exact absurd ((Json.isStr_iff j s).mp hb) h

theorem pySubscript_of_lookup_some {j : Json} {k : String} {v : Json}
    (h : j.lookup k = some v) : pySubscript j k = .ok v := by
  cases j <;> simp [Json.lookup] at h
  simp [pySubscript, h]

theorem pySubscript_error_of_lookup_none {j : Json} {k : String}
    (h : j.lookup k = none) : ∃ e : PyErr, pySubscript j k = .error e := by
  cases j with
  | obj fields =>
    simp only [Json.lookup] at h
    exact ⟨.keyError k, by simp [pySubscript, h]⟩
  | null => exact ⟨.typeError, rfl⟩
  | bool b => exact ⟨.typeError, rfl⟩
  | num n => exact ⟨.typeError, rfl⟩
  | str s => exact ⟨.typeError, rfl⟩

theorem foldl_enqueue (ms : List Json) (q : List Json) :
    List.foldl enqueue q ms = q ++ ms := by
  induction ms generalizing q with
  | nil => simp
  | cons m rest ih => simp [List.foldl, enqueue, ih]

theorem consumeFuel_of_le (n : Nat) (q : List Json) (h : q.length ≤ n) :
    consumeFuel n q = q := by
  induction n generalizing q with
  | zero =>
    cases q with
    | nil => rfl
    | cons m rest => simp at h
  | succ n ih =>
    cases q with
    | nil => rfl
    | cons m rest =>
      simp [consumeFuel, dequeue]
      exact ih rest (Nat.le_of_succ_le_succ h)

/-- A `task_reminder` message whose task or user lookup came back as
`None` takes the fall-through of `process_notification`: result
`unknown_type`, both lookup calls made, no email call. -/
theorem processReminderUnresolved (env : Collaborators) (nd : List (String × Json))
    (hty : pyGet nd "type" = Json.str "task_reminder")
    (h : ApiClient.get_task (env.taskResp (pyGet nd "task_id")) = Json.null ∨
         ApiClient.get_user (env.userResp (pyGet nd "user_id")) = Json.null) :
    process_notification env nd =
      (.ok resultUnknownType, [.getTask (pyGet nd "task_id"), .getUser (pyGet nd "user_id")]) := by
  have h1 : (pyGet nd "type").isStr "task_created" = false := by rw [hty]; rfl
  have h2 : (pyGet nd "type").isStr "task_reminder" = true := by rw [hty]; rfl
  rcases h with h | h
  · simp [process_notification, h1, h2, h, Json.truthy]
  · simp [process_notification, h1, h2, h, Json.truthy]

/-- C4: for every dequeued message whose `type` is neither
`task_created` nor `task_reminder`, `process_notification` returns the
dict with status `unknown_type` and performs no collaborator call (its
call trace is empty). -/
theorem C4_unknown_type_no_side_effects (env : Collaborators)
    (nd : List (String × Json))
    (h1 : pyGet nd "type" ≠ Json.str "task_created")
    (h2 : pyGet nd "type" ≠ Json.str "task_reminder") :
    process_notification env nd = (.ok resultUnknownType, []) := by
  simp [process_notification, Json.isStr_eq_false h1, Json.isStr_eq_false h2]

/-- C4 witness: the spec scenario, message with type `bogus` against
collaborators that would fail every call: result `unknown_type`, no
calls. -/
theorem C4_witness :
    process_notification failEnv [("type", Json.str "bogus")] =
      (.ok resultUnknownType, []) := by
  refine C4_unknown_type_no_side_effects failEnv [("type", Json.str "bogus")] ?_ ?_
  · intro h
    have h3 : Json.str "bogus" = Json.str "task_created" := h
    injection h3 with h4
    exact absurd h4 (by decide)
  · intro h
    have h3 : Json.str "bogus" = Json.str "task_reminder" := h
    injection h3 with h4
    exact absurd h4 (by decide)

/-- C5: a `task_created` message is only recorded: `process_notification`
returns status `logged` with the `task_id` of the message, makes no
collaborator call, and the consumer dequeue of that message removes it
from the head of the queue. -/
theorem C5_task_created_logged_no_calls (env : Collaborators)
    (nd : List (String × Json)) (rest : List Json)
    (h : pyGet nd "type" = Json.str "task_created") :
    process_notification env nd = (.ok (resultLogged (pyGet nd "task_id")), []) ∧
    dequeue (Json.obj nd :: rest) = some (Json.obj nd, rest) := by
  constructor
  · have h1 : (pyGet nd "type").isStr "task_created" = true := by rw [h]; rfl
    simp [process_notification, h1]
  · rfl

/-- C5 witness: a concrete `task_created` message for task 42 and user 7
against collaborators that would fail every call: logged, no calls, and
dequeuing it leaves the rest of the queue. -/
theorem C5_witness :
    process_notification failEnv
        [("type", Json.str "task_created"), ("task_id", Json.num 42), ("user_id", Json.num 7)] =
      (.ok (resultLogged (Json.num 42)), []) ∧
    dequeue (Json.obj [("type", Json.str "task_created"), ("task_id", Json.num 42), ("user_id", Json.num 7)] :: [Json.null]) =
      some (Json.obj [("type", Json.str "task_created"), ("task_id", Json.num 42), ("user_id", Json.num 7)], [Json.null]) :=
  C5_task_created_logged_no_calls failEnv
    [("type", Json.str "task_created"), ("task_id", Json.num 42), ("user_id", Json.num 7)]
    [Json.null] rfl

/-- C9: a `task_reminder` message whose task or user fails to resolve
(the lookup returns `None`) sends no email and yields the very same
`unknown_type` result dict that an unrecognized type yields. -/
theorem C9_unresolved_reminder_unknown_type (env : Collaborators)
    (nd : List (String × Json))
    (hty : pyGet nd "type" = Json.str "task_reminder")
    (h : ApiClient.get_task (env.taskResp (pyGet nd "task_id")) = Json.null ∨
         ApiClient.get_user (env.userResp (pyGet nd "user_id")) = Json.null) :
    process_notification env nd =
      (.ok resultUnknownType, [.getTask (pyGet nd "task_id"), .getUser (pyGet nd "user_id")]) :=
  processReminderUnresolved env nd hty h

/-- C9 witness: the reminder message for task 42 / user 7 against
collaborators answering 404: both lookups made, no email, result
`unknown_type`. -/
theorem C9_witness :
    process_notification notFoundEnv reminderMsg42 =
      (.ok resultUnknownType, [.getTask (Json.num 42), .getUser (Json.num 7)]) :=
  C9_unresolved_reminder_unknown_type notFoundEnv reminderMsg42 rfl (Or.inl rfl)

/-- C1 counterexample: a `task_reminder` message where both lookups
succeed with non-`None` entities — task 42 resolves to a dict with an
`id`, user 7 resolves to the dict with only an `id` and no `email` —
yet the email collaborator is never invoked and the result is not
`reminder_sent`: the unguarded `user["email"]` raises `KeyError`
instead. -/
theorem C1_counterexample :
    ApiClient.get_task ((stubCollaborators (Json.obj [("id", Json.num 42)])
        (Json.obj [("id", Json.num 7)])).taskResp (Json.num 42)) =
      Json.obj [("id", Json.num 42)] ∧
    ApiClient.get_user ((stubCollaborators (Json.obj [("id", Json.num 42)])
        (Json.obj [("id", Json.num 7)])).userResp (Json.num 7)) =
      Json.obj [("id", Json.num 7)] ∧
    process_notification (stubCollaborators (Json.obj [("id", Json.num 42)])
        (Json.obj [("id", Json.num 7)])) reminderMsg42 =
      (.error (.keyError "email"), [.getTask (Json.num 42), .getUser (Json.num 7)]) :=
  ⟨rfl, rfl, rfl⟩

/-- C1 (amended): for every `task_reminder` message whose task and user
lookups return truthy values and whose resolved user object maps
`email` to a value, `process_notification` invokes the email
collaborator exactly once — with the `task_id` of the message, its
`user_id` and that email value — and returns status `reminder_sent`
with the `task_id` of the message. -/
theorem C1_reminder_sends_email_once (env : Collaborators)
    (nd : List (String × Json)) (tj uj e : Json)
    (hty : pyGet nd "type" = Json.str "task_reminder")
    (ht : ApiClient.get_task (env.taskResp (pyGet nd "task_id")) = tj)
    (htt : tj.truthy = true)
    (hu : ApiClient.get_user (env.userResp (pyGet nd "user_id")) = uj)
    (hut : uj.truthy = true)
    (he : uj.lookup "email" = some e) :
    process_notification env nd =
      (.ok (resultReminderSent (pyGet nd "task_id")),
       [.getTask (pyGet nd "task_id"), .getUser (pyGet nd "user_id"),
        .sendEmail (pyGet nd "task_id") (pyGet nd "user_id") e]) := by
  have h1 : (pyGet nd "type").isStr "task_created" = false := by rw [hty]; rfl
  have h2 : (pyGet nd "type").isStr "task_reminder" = true := by rw [hty]; rfl
  have hsub := pySubscript_of_lookup_some he
  simp [process_notification, h1, h2, ht, htt, hu, hut, hsub]

/-- C1 witness: the spec scenario — reminder for task 42 / user 7, task
stub answers a dict with id 42, user stub answers id 7 with email
`a@x.com` — the email collaborator is called once with `(42, 7,
a@x.com)` and the result is `reminder_sent` for task 42. -/
theorem C1_witness :
    process_notification (stubCollaborators (Json.obj [("id", Json.num 42)])
        (Json.obj [("id", Json.num 7), ("email", Json.str "a@x.com")])) reminderMsg42 =
      (.ok (resultReminderSent (Json.num 42)),
       [.getTask (Json.num 42), .getUser (Json.num 7),
        .sendEmail (Json.num 42) (Json.num 7) (Json.str "a@x.com")]) :=
  C1_reminder_sends_email_once
    (stubCollaborators (Json.obj [("id", Json.num 42)])
      (Json.obj [("id", Json.num 7), ("email", Json.str "a@x.com")]))
    reminderMsg42
    (Json.obj [("id", Json.num 42)])
    (Json.obj [("id", Json.num 7), ("email", Json.str "a@x.com")])
    (Json.str "a@x.com") rfl rfl rfl rfl rfl rfl

/-- C10 counterexample: both lookups return non-`None` values — the
user resolves to the empty dict, which has no `email` key — yet no
error is raised: the empty dict is falsy, so the `if task and user:`
guard routes the message to the `unknown_type` fall-through instead of
reaching `user["email"]`. -/
theorem C10_counterexample :
    ApiClient.get_task ((stubCollaborators (Json.obj [("id", Json.num 42)])
        (Json.obj [])).taskResp (Json.num 42)) = Json.obj [("id", Json.num 42)] ∧
    ApiClient.get_user ((stubCollaborators (Json.obj [("id", Json.num 42)])
        (Json.obj [])).userResp (Json.num 7)) = Json.obj [] ∧
    (Json.obj []).lookup "email" = none ∧
    process_notification (stubCollaborators (Json.obj [("id", Json.num 42)])
        (Json.obj [])) reminderMsg42 =
      (.ok resultUnknownType, [.getTask (Json.num 42), .getUser (Json.num 7)]) :=
  ⟨rfl, rfl, rfl, rfl⟩

/-- C10 (amended): for every `task_reminder` message whose task and user
lookups return truthy values where the user value has no `email` key,
the unguarded `user["email"]` raises an uncaught Python error and
`process_notification` propagates it (no email call is made). -/
theorem C10_truthy_user_missing_email_raises (env : Collaborators)
    (nd : List (String × Json)) (tj uj : Json)
    (hty : pyGet nd "type" = Json.str "task_reminder")
    (ht : ApiClient.get_task (env.taskResp (pyGet nd "task_id")) = tj)
    (htt : tj.truthy = true)
    (hu : ApiClient.get_user (env.userResp (pyGet nd "user_id")) = uj)
    (hut : uj.truthy = true)
    (he : uj.lookup "email" = none) :
    ∃ err : PyErr, process_notification env nd =
      (.error err, [.getTask (pyGet nd "task_id"), .getUser (pyGet nd "user_id")]) := by
  obtain ⟨err, hsub⟩ := pySubscript_error_of_lookup_none he
  refine ⟨err, ?_⟩
  have h1 : (pyGet nd "type").isStr "task_created" = false := by rw [hty]; rfl
  have h2 : (pyGet nd "type").isStr "task_reminder" = true := by rw [hty]; rfl
  simp [process_notification, h1, h2, ht, htt, hu, hut, hsub]

/-- C10 witness: reminder for task 42 / user 7 where the user resolves
to the truthy dict with only an `id` field: processing raises an
uncaught error after the two lookup calls. -/
theorem C10_witness :
    ∃ err : PyErr, process_notification (stubCollaborators
        (Json.obj [("id", Json.num 42)]) (Json.obj [("id", Json.num 7)])) reminderMsg42 =
      (.error err, [.getTask (Json.num 42), .getUser (Json.num 7)]) :=
  C10_truthy_user_missing_email_raises
    (stubCollaborators (Json.obj [("id", Json.num 42)]) (Json.obj [("id", Json.num 7)]))
    reminderMsg42
    (Json.obj [("id", Json.num 42)]) (Json.obj [("id", Json.num 7)])
    rfl rfl rfl rfl rfl rfl

theorem get_task_failed {o : HttpOutcome} (h : o.failed = true) :
    ApiClient.get_task o = Json.null := by
  cases o with
  | ok status body =>
    simp [HttpOutcome.failed] at h
    simp [ApiClient.get_task, h]
  | connError => rfl
  | timeout => rfl

theorem get_user_failed {o : HttpOutcome} (h : o.failed = true) :
    ApiClient.get_user o = Json.null := by
  cases o with
  | ok status body =>
    simp [HttpOutcome.failed] at h
    simp [ApiClient.get_user, h]
  | connError => rfl
  | timeout => rfl

theorem send_task_reminder_failed {o : HttpOutcome} (h : o.failed = true) :
    EmailClient.send_task_reminder o = false := by
  cases o with
  | ok status body =>
    simp [HttpOutcome.failed] at h
    simp [EmailClient.send_task_reminder, h]
  | connError => rfl
  | timeout => rfl

/-- C3: collaborator call failures (timeout, connection error, non-2xx)
are contained at the handler boundary: the failed lookup clients return
`None`, the failed email client returns `False`, a reminder whose
lookups fail yields the `unknown_type` result instead of an exception,
and the outcome of the email call — success or failure — has no effect at
all on what `process_notification` returns (the message is dropped
either way, never requeued). -/
theorem C3_collaborator_failure_contained :
    (∀ o : HttpOutcome, o.failed = true → ApiClient.get_task o = Json.null) ∧
    (∀ o : HttpOutcome, o.failed = true → ApiClient.get_user o = Json.null) ∧
    (∀ o : HttpOutcome, o.failed = true → EmailClient.send_task_reminder o = false) ∧
    (∀ (env : Collaborators) (nd : List (String × Json)),
      pyGet nd "type" = Json.str "task_reminder" →
      (env.taskResp (pyGet nd "task_id")).failed = true ∨
        (env.userResp (pyGet nd "user_id")).failed = true →
      process_notification env nd =
        (.ok resultUnknownType,
         [.getTask (pyGet nd "task_id"), .getUser (pyGet nd "user_id")])) ∧
    (∀ (tr ur : Json → HttpOutcome) (er er2 : Json → Json → Json → HttpOutcome)
        (nd : List (String × Json)),
      process_notification ⟨tr, ur, er⟩ nd = process_notification ⟨tr, ur, er2⟩ nd) := by
  refine ⟨fun o h => get_task_failed h, fun o h => get_user_failed h,
    fun o h => send_task_reminder_failed h, ?_, fun tr ur er er2 nd => rfl⟩
  intro env nd hty h
  refine processReminderUnresolved env nd hty ?_
  rcases h with h | h
  · exact Or.inl (get_task_failed h)
  · exact Or.inr (get_user_failed h)

/-- C3 witness: a connection error, a timeout and a 500 each yield
`None`/`False` from the clients; the reminder for task 42 / user 7
against all-failing collaborators yields `unknown_type` without an
exception; and swapping a failing email collaborator for a succeeding
one leaves the processing result unchanged. -/
theorem C3_witness :
    ApiClient.get_task HttpOutcome.connError = Json.null ∧
    ApiClient.get_user HttpOutcome.timeout = Json.null ∧
    EmailClient.send_task_reminder (HttpOutcome.ok 500 Json.null) = false ∧
    process_notification failEnv reminderMsg42 =
      (.ok resultUnknownType, [.getTask (Json.num 42), .getUser (Json.num 7)]) ∧
    process_notification
        ⟨fun _ => .ok 200 (Json.obj [("id", Json.num 42)]),
         fun _ => .ok 200 (Json.obj [("id", Json.num 7), ("email", Json.str "a@x.com")]),
         fun _ _ _ => .ok 500 Json.null⟩ reminderMsg42 =
      process_notification
        ⟨fun _ => .ok 200 (Json.obj [("id", Json.num 42)]),
         fun _ => .ok 200 (Json.obj [("id", Json.num 7), ("email", Json.str "a@x.com")]),
         fun _ _ _ => .ok 200 Json.null⟩ reminderMsg42 :=
  ⟨C3_collaborator_failure_contained.1 HttpOutcome.connError rfl,
   C3_collaborator_failure_contained.2.1 HttpOutcome.timeout rfl,
   C3_collaborator_failure_contained.2.2.1 (HttpOutcome.ok 500 Json.null) rfl,
   C3_collaborator_failure_contained.2.2.2.1 failEnv reminderMsg42 rfl (Or.inl rfl),
   C3_collaborator_failure_contained.2.2.2.2
     (fun _ => .ok 200 (Json.obj [("id", Json.num 42)]))
     (fun _ => .ok 200 (Json.obj [("id", Json.num 7), ("email", Json.str "a@x.com")]))
     (fun _ _ _ => .ok 500 Json.null) (fun _ _ _ => .ok 200 Json.null) reminderMsg42⟩

/-- C2: the `send_email` route of the email service rejects the very request
body the worker `EmailClient.send_task_reminder` posts: for every
environment and every `task_id`/`user_id`/`to` arguments, a body of
type `task_reminder` falls through both handled branches and is
answered 400 `Invalid email type` — never `status: sent`. -/
theorem C2_email_api_rejects_task_reminder (env : EmailEnv) (t u to_email : Json) :
    EmailRoutes.send_email env (reminderRequestFields t u to_email) =
      .ok (400, Json.obj [("error", Json.str "Invalid email type")]) := by
  have h1 : (pyGet (reminderRequestFields t u to_email) "type").isStr "task_completed" = false := rfl
  have h2 : (pyGet (reminderRequestFields t u to_email) "type").isStr "welcome" = false := rfl
  simp [EmailRoutes.send_email, h1, h2]

/-- C6: each producer entry point appends exactly one wire-format
message at the tail of the `notifications` list and touches no other
key: `send_task_created` and `send_task_reminder` append their
respective typed message for the given ids, and `TaskService.create_task`
enqueues exactly one `task_created` message carrying the persisted
task id and the given user id. -/
theorem C6_producer_appends_one_message (store : String → List Json)
    (t u nid : Int) :
    NotificationQueue.send_task_created store t u queue_name =
      store queue_name ++ [NotificationMessage.toJson ⟨"task_created", t, u⟩] ∧
    NotificationQueue.send_task_reminder store t u queue_name =
      store queue_name ++ [NotificationMessage.toJson ⟨"task_reminder", t, u⟩] ∧
    TaskService.create_task nid u store queue_name =
      store queue_name ++ [NotificationMessage.toJson ⟨"task_created", nid, u⟩] ∧
    (∀ k, k ≠ queue_name →
      NotificationQueue.send_task_created store t u k = store k ∧
      NotificationQueue.send_task_reminder store t u k = store k) ∧
    wireFormat (NotificationMessage.toJson ⟨"task_created", t, u⟩) = true ∧
    wireFormat (NotificationMessage.toJson ⟨"task_reminder", t, u⟩) = true := by
  refine ⟨?_, ?_, ?_, ?_, rfl, rfl⟩
  · simp [NotificationQueue.send_task_created, rpush, enqueue]
  · simp [NotificationQueue.send_task_reminder, rpush, enqueue]
  · simp [TaskService.create_task, NotificationQueue.send_task_created, rpush, enqueue]
  · intro k hk
    constructor
    · simp [NotificationQueue.send_task_created, rpush, hk]
    · simp [NotificationQueue.send_task_reminder, rpush, hk]

/-- C6 witness: from an empty store, enqueuing the created/reminder
messages for task 1 / user 2 puts exactly that message on the
`notifications` list while the key `other` stays empty. -/
theorem C6_witness :
    NotificationQueue.send_task_created (fun _ => []) 1 2 queue_name =
      [NotificationMessage.toJson ⟨"task_created", 1, 2⟩] ∧
    NotificationQueue.send_task_created (fun _ => []) 1 2 "other" = [] ∧
    NotificationQueue.send_task_reminder (fun _ => []) 1 2 "other" = [] :=
  ⟨(C6_producer_appends_one_message (fun _ => []) 1 2 3).1,
   ((C6_producer_appends_one_message (fun _ => []) 1 2 3).2.2.2.1 "other" (by decide)).1,
   ((C6_producer_appends_one_message (fun _ => []) 1 2 3).2.2.2.1 "other" (by decide)).2⟩

/-- C7: the enqueue→dequeue round-trip is lossless on wire-format
messages: decoding the JSON encoding the producer enqueues gives back
exactly the original message. -/
theorem C7_encode_decode_roundtrip (m : NotificationMessage) :
    NotificationMessage.fromJson (NotificationMessage.toJson m) = some m := by
  cases m
  rfl

/-- C8: the transport is FIFO: `enqueue` appends at the tail, `dequeue`
returns the head (oldest message) and leaves the rest, and draining a
queue fed by any sequence of enqueues hands a single consumer the
messages in exactly the order they were enqueued. -/
theorem C8_fifo_order :
    (∀ (q : List Json) (m : Json), enqueue q m = q ++ [m]) ∧
    dequeue ([] : List Json) = none ∧
    (∀ (m : Json) (rest : List Json), dequeue (m :: rest) = some (m, rest)) ∧
    (∀ ms : List Json, consumeAll (List.foldl enqueue [] ms) = ms) := by
  refine ⟨fun q m => rfl, rfl, fun m rest => rfl, fun ms => ?_⟩
  have h := consumeFuel_of_le ms.length ms le_rfl
  simpa [consumeAll, foldl_enqueue] using h

end TaskMgmt
